import Mathlib

/-!
GPS Speed Meter — verification of the live tracking core.

A shallow embedding of the tracking core of the `gps-speed-meter` app:

* geodesy utilities (`toRadians`, `haversineDistance`)
  from `services/speed-calculator`;
* the sample processor (`calculateSpeed`, `distanceIncrement`)
  from `services/speed-calculator` and the `handleLocationUpdate`
  callback in `hooks/useTracking.ts`;
* the trip store (`TrackingState` together with its actions)
  from `stores/trip-store`;
* the tracking state machine of `hooks/useTracking.ts`
  (location updates, timers, start/stop) and the trip rows of
  `database/queries.ts`.

JavaScript numbers are modelled as exact real (or, where kernel
computation is wanted, rational) arithmetic; `x | null` fields become
`Option`; epoch milliseconds become `ℤ`.
-/

namespace SpeedMeter

noncomputable section

/-! ## Geodesy utilities (`services/speed-calculator`) -/

/-- A latitude/longitude pair, the shape consumed by `haversineDistance`. -/
structure Coord where
  latitude : ℝ
  longitude : ℝ

/-- Source `toRadians(degrees)`: `degrees * (Math.PI / 180)`. -/
def toRadians (degrees : ℝ) : ℝ := degrees * (Real.pi / 180)

/-- Modelled from the JS builtin `Math.atan2(y, x)`: the angle of the
point `(x, y)`, in `(-π, π]`, following its standard specification. -/
def atan2 (y x : ℝ) : ℝ :=
  if 0 < x then Real.arctan (y / x)
  else if x < 0 then
    (if 0 ≤ y then Real.arctan (y / x) + Real.pi
     else Real.arctan (y / x) - Real.pi)
  else
    (if 0 < y then Real.pi / 2
     else if y < 0 then -(Real.pi / 2)
     else 0)

/-- The intermediate value `a` of `haversineDistance`:
`sin²(Δlat/2) + cos(lat1)·cos(lat2)·sin²(Δlon/2)`. -/
def havA (point1 point2 : Coord) : ℝ :=
  Real.sin (toRadians (point2.latitude - point1.latitude) / 2) *
      Real.sin (toRadians (point2.latitude - point1.latitude) / 2) +
    Real.cos (toRadians point1.latitude) * Real.cos (toRadians point2.latitude) *
      (Real.sin (toRadians (point2.longitude - point1.longitude) / 2) *
        Real.sin (toRadians (point2.longitude - point1.longitude) / 2))

/-- Source `haversineDistance(point1, point2)`: great-circle distance in meters,
Earth radius `6371000`, `c = 2 * atan2(√a, √(1-a))`, result `R * c`. -/
def haversineDistance (point1 point2 : Coord) : ℝ :=
  6371000 *
    (2 * atan2 (Real.sqrt (havA point1 point2)) (Real.sqrt (1 - havA point1 point2)))

/-! ## Sample processor (`services/speed-calculator`, `CONVERSION` constants) -/

/-- Constant `CONVERSION.MS_TO_KMH = 3.6`. -/
def MS_TO_KMH : ℝ := 3.6

/-- Constant `CONVERSION.KMH_TO_MPH = 0.621371`. -/
def KMH_TO_MPH : ℝ := 0.621371

/-- Constant `GPS_NOISE_THRESHOLD_KMH = 1.0` (km/h): speeds below this are
considered stationary. -/
def GPS_NOISE_THRESHOLD_KMH : ℝ := 1

/-- A `LocationPoint` (from `types/index.ts`): one GPS fix annotated with
its trip.  `speed` is m/s from the GPS, `null`able; `timestamp` is epoch
milliseconds. -/
structure LocationPoint where
  tripId : ℕ
  latitude : ℝ
  longitude : ℝ
  speed : Option ℝ
  altitude : Option ℝ
  accuracy : Option ℝ
  timestamp : ℤ

/-- The coordinate pair of a point, as passed to `haversineDistance`. -/
def LocationPoint.coord (p : LocationPoint) : Coord :=
  { latitude := p.latitude, longitude := p.longitude }

/-- The `else if (prevLocation)` fallback branch of `calculateSpeed`:
distance/time when `timeDiff > 0`, otherwise the initial `speed = 0`. -/
def calculateSpeedFallback (currentLocation : LocationPoint) :
    Option LocationPoint → ℝ
  | none => 0
  | some prevLocation =>
    let distance := haversineDistance prevLocation.coord currentLocation.coord
    let timeDiff : ℝ := ((currentLocation.timestamp - prevLocation.timestamp : ℤ) : ℝ) / 1000
    if 0 < timeDiff then distance / timeDiff * MS_TO_KMH else 0

/-- The local `speed` variable of `calculateSpeed` before the noise
filter: the GPS-provided speed when present and `>= 0`, otherwise the
fallback branch. -/
def calculateSpeedRaw (currentLocation : LocationPoint)
    (prevLocation : Option LocationPoint) : ℝ :=
  match currentLocation.speed with
  | some s =>
    if 0 ≤ s then s * MS_TO_KMH
    else calculateSpeedFallback currentLocation prevLocation
  | none => calculateSpeedFallback currentLocation prevLocation

/-- Source `calculateSpeed(currentLocation, prevLocation)` from
`services/speed-calculator`: prefer the GPS-provided speed when present
and `>= 0`; otherwise fall back to distance/time; finally clamp any
result below `GPS_NOISE_THRESHOLD_KMH` to `0`. -/
def calculateSpeed (currentLocation : LocationPoint)
    (prevLocation : Option LocationPoint) : ℝ :=
  if calculateSpeedRaw currentLocation prevLocation < GPS_NOISE_THRESHOLD_KMH then 0
  else calculateSpeedRaw currentLocation prevLocation

/-- The distance increment computed in `handleLocationUpdate`
(`hooks/useTracking.ts`): `haversineDistance(last, new)` when a last
location exists and the computed `speed > 0`, else `0`. -/
def distanceIncrement (newPoint : LocationPoint)
    (lastLocation : Option LocationPoint) (speed : ℝ) : ℝ :=
  match lastLocation with
  | some last =>
    if 0 < speed then haversineDistance last.coord newPoint.coord else 0
  | none => 0

/-! ### Spec-side transcription of the Sample Processor rules (§4.2)

These two definitions follow the wording of the specification, to be
compared with `calculateSpeed`/`distanceIncrement` above. -/

/-- Spec §4.2, rule 1: the device-reported speed in km/h, when it is
present and `≥ 0`. -/
def specDeviceKmh (current : LocationPoint) : Option ℝ :=
  match current.speed with
  | some s => if 0 ≤ s then some (s * 3.6) else none
  | none => none

/-- Spec §4.2, rules 2–3: `distance/Δt * 3.6` when a previous point
exists and `Δt = (current - previous)/1000` seconds is strictly
positive, else `0`. -/
def specFallbackKmh (current : LocationPoint) : Option LocationPoint → ℝ
  | some p =>
    if 0 < ((current.timestamp - p.timestamp : ℤ) : ℝ) / 1000 then
      haversineDistance p.coord current.coord /
        (((current.timestamp - p.timestamp : ℤ) : ℝ) / 1000) * 3.6
    else 0
  | none => 0

/-- Spec §4.2, rules 1–4 assembled: prefer the device value, otherwise
the fallback; then any value `< 1.0` is clamped to exactly `0`. -/
def specSpeedKmh (current : LocationPoint) (prev : Option LocationPoint) : ℝ :=
  if (specDeviceKmh current).getD (specFallbackKmh current prev) < 1 then 0
  else (specDeviceKmh current).getD (specFallbackKmh current prev)

/-- Spec §4.2, rule 5: the increment is the haversine distance between
the previous and current point exactly when a previous point exists and
the final (post-clamp) speed is `> 0`; otherwise `0`. -/
def specIncrementMeters (current : LocationPoint) (prev : Option LocationPoint) : ℝ :=
  match prev with
  | some p =>
    if 0 < specSpeedKmh current prev then haversineDistance p.coord current.coord
    else 0
  | none => 0

/-! ## Trip store (`stores/trip-store`) and tracking session state

`TrackingState` models the zustand trip store together with the refs of
`useTracking` that shadow it (`lastGpsUpdateRef`, the armed auto-pause
`setTimeout` of `stationaryTimerRef`, modelled by the absolute time at
which it is due to fire).  The hook keeps the refs in sync with the
store, so one record stands for both. -/

/-- GPS signal health, `'searching' | 'acquired' | 'lost'`. -/
inductive GpsStatus where
  | searching
  | acquired
  | lost
deriving DecidableEq

/-- The trip store state (`TrackingState` in `types/index.ts` plus
`tripStartTime`), extended with the hook's `lastGpsUpdateRef` and the
deadline of the armed stationary `setTimeout`. -/
structure TrackingState where
  isTracking : Bool
  isPaused : Bool
  currentSpeed : ℝ
  currentTripId : Option ℕ
  totalDistance : ℝ
  avgSpeed : ℝ
  maxSpeed : ℝ
  elapsedTime : ℤ
  lastLocation : Option LocationPoint
  gpsStatus : GpsStatus
  accuracy : Option ℝ
  tripStartTime : Option ℤ
  lastGpsUpdate : ℤ
  stationaryDeadline : Option ℤ

/-- The store's `initialState` (with the auxiliary ref fields zeroed). -/
def initialState : TrackingState :=
  { isTracking := false
    isPaused := false
    currentSpeed := 0
    currentTripId := none
    totalDistance := 0
    avgSpeed := 0
    maxSpeed := 0
    elapsedTime := 0
    lastLocation := none
    gpsStatus := .searching
    accuracy := none
    tripStartTime := none
    lastGpsUpdate := 0
    stationaryDeadline := none }

/-- Store action `startTracking(tripId)`; `lastLocation` is cleared
because the hook's `startTracking` sets `lastLocationRef.current = null`
at the same moment. -/
def startTrackingStore (tripId : ℕ) (now : ℤ) (s : TrackingState) : TrackingState :=
  { s with
    isTracking := true
    isPaused := false
    currentTripId := some tripId
    tripStartTime := some now
    totalDistance := 0
    avgSpeed := 0
    maxSpeed := 0
    elapsedTime := 0
    gpsStatus := .searching
    lastLocation := none }

/-- Store action `restoreTracking(tripId, startTime, totalDistance,
maxSpeed, avgSpeed)`: rehydrates from the database after a restart,
computing `elapsedTime = Math.floor((Date.now() - startTime) / 1000)`. -/
def restoreTracking (now : ℤ) (tripId : ℕ) (startTime : ℤ)
    (totalDistance maxSpeed avgSpeed : ℝ) (s : TrackingState) : TrackingState :=
  let elapsedTime := (now - startTime).fdiv 1000
  { s with
    isTracking := true
    isPaused := false
    currentTripId := some tripId
    tripStartTime := some startTime
    totalDistance := totalDistance
    maxSpeed := maxSpeed
    avgSpeed := avgSpeed
    elapsedTime := elapsedTime
    gpsStatus := .searching }

/-- Store action `stopTracking()`. -/
def stopTrackingStore (s : TrackingState) : TrackingState :=
  { s with
    isTracking := false
    isPaused := false
    currentTripId := none
    tripStartTime := none }

/-- Store action `pauseTracking()`. -/
def pauseTracking (s : TrackingState) : TrackingState :=
  { s with isPaused := true }

/-- Store action `resumeTracking()`. -/
def resumeTracking (s : TrackingState) : TrackingState :=
  { s with isPaused := false }

/-- Store action `updateLocation(location, speed)`: sets the current
speed, remembers the point, takes `maxSpeed = max(old, speed)`, marks the
GPS acquired and publishes the point's accuracy. -/
def updateLocation (location : LocationPoint) (speed : ℝ)
    (s : TrackingState) : TrackingState :=
  { s with
    currentSpeed := speed
    lastLocation := some location
    maxSpeed := max s.maxSpeed speed
    gpsStatus := .acquired
    accuracy := location.accuracy }

/-- Store action `updateDistance(distance)`: adds the increment and
recomputes the average speed from wall-clock elapsed time. -/
def updateDistance (now : ℤ) (distance : ℝ) (s : TrackingState) : TrackingState :=
  let newTotalDistance := s.totalDistance + distance
  let elapsedSeconds : ℝ :=
    match s.tripStartTime with
    | some t0 => ((now - t0 : ℤ) : ℝ) / 1000
    | none => 0
  let elapsedHours := elapsedSeconds / 3600
  let avgSpeed := if 0 < elapsedHours then newTotalDistance / 1000 / elapsedHours else 0
  { s with totalDistance := newTotalDistance, avgSpeed := avgSpeed }

/-- Store action `updateGpsStatus(status)`. -/
def updateGpsStatus (status : GpsStatus) (s : TrackingState) : TrackingState :=
  { s with gpsStatus := status }

/-- Store action `updateElapsedTime()`: while tracking and not paused,
refreshes `elapsedTime` from the wall clock and recomputes the average
speed with it. -/
def updateElapsedTime (now : ℤ) (s : TrackingState) : TrackingState :=
  match s.tripStartTime with
  | some t0 =>
    if s.isTracking = true ∧ s.isPaused = false then
      let elapsedTime := (now - t0).fdiv 1000
      let elapsedHours : ℝ := (elapsedTime : ℝ) / 3600
      let avgSpeed := if 0 < elapsedHours then s.totalDistance / 1000 / elapsedHours else 0
      { s with elapsedTime := elapsedTime, avgSpeed := avgSpeed }
    else s
  | none => s

/-! ## The tracking hook (`hooks/useTracking.ts`) -/

/-- Speed unit preference, `'kmh' | 'mph'`. -/
inductive SpeedUnit where
  | kmh
  | mph
deriving DecidableEq

/-- The slice of the settings store that the tracking hook reads. -/
structure Settings where
  unit : SpeedUnit
  autoPauseEnabled : Bool
  autoPauseThreshold : ℝ

/-- Constant `STATIONARY_CONFIG.duration = 5` seconds (`constants/config`). -/
def STATIONARY_CONFIG_duration : ℤ := 5

/-- The unit-aware auto-pause threshold: `settings.autoPauseThreshold`,
converted with `* 0.621371` when the unit is mph. -/
def stationaryThreshold (settings : Settings) : ℝ :=
  match settings.unit with
  | .mph => settings.autoPauseThreshold * KMH_TO_MPH
  | .kmh => settings.autoPauseThreshold

/-- Source `handleStationaryDetection(speed)`: returns untouched unless
auto-pause is enabled and the trip is not paused; below the (unit-aware)
threshold it arms the stationary `setTimeout` if none is armed; at or
above it clears the timer, then runs the auto-resume branch of the
source (which is unreachable, because the function already returned when
`isPausedRef.current` was set). -/
def handleStationaryDetection (settings : Settings) (now : ℤ) (speed : ℝ)
    (s : TrackingState) : TrackingState :=
  if settings.autoPauseEnabled = false ∨ s.isPaused = true then s
  else if speed < stationaryThreshold settings then
    match s.stationaryDeadline with
    | some _ => s
    | none =>
      { s with stationaryDeadline := some (now + STATIONARY_CONFIG_duration * 1000) }
  else if s.isPaused = true ∧ stationaryThreshold settings ≤ speed then
    resumeTracking { s with stationaryDeadline := none }
  else { s with stationaryDeadline := none }

/-- The body of the stationary `setTimeout` callback: pause if a trip is
active and not already paused, then drop the timer handle. -/
def stationaryTimerFire (s : TrackingState) : TrackingState :=
  match s.stationaryDeadline with
  | none => s
  | some _ =>
    if s.currentTripId.isSome = true ∧ s.isPaused = false then
      { pauseTracking s with stationaryDeadline := none }
    else { s with stationaryDeadline := none }

/-- A raw `expo-location` `LocationObject` as read by the hook. -/
structure RawLocation where
  latitude : ℝ
  longitude : ℝ
  speed : Option ℝ
  altitude : Option ℝ
  accuracy : Option ℝ
  timestamp : ℤ

/-- The `newPoint` record built by `handleLocationUpdate` from the raw
sample and the current trip id. -/
def sampleLocationPoint (tripId : ℕ) (location : RawLocation) : LocationPoint :=
  { tripId := tripId
    latitude := location.latitude
    longitude := location.longitude
    speed := location.speed
    altitude := location.altitude
    accuracy := location.accuracy
    timestamp := location.timestamp }

/-- The `if (distanceIncrement > 0) updateDistance(...)` step of
`handleLocationUpdate`. -/
def applyDistance (now : ℤ) (d : ℝ) (s : TrackingState) : TrackingState :=
  if 0 < d then updateDistance now d s else s

/-- Source `handleLocationUpdate(location)`: always refresh the GPS watchdog
clock; skip everything when no trip is active or the trip is paused;
otherwise compute the speed and the distance increment, apply
`updateLocation`, apply `updateDistance` when the increment is positive,
and finally run stationary detection.  (Persistence and notification
calls are external effects and carry no store state.) -/
def handleLocationUpdate (settings : Settings) (now : ℤ)
    (location : RawLocation) (s : TrackingState) : TrackingState :=
  match s.currentTripId with
  | none => { s with lastGpsUpdate := now }
  | some tripId =>
    if s.isPaused = true then { s with lastGpsUpdate := now }
    else
      handleStationaryDetection settings now
        (calculateSpeed (sampleLocationPoint tripId location) s.lastLocation)
        (applyDistance now
          (distanceIncrement (sampleLocationPoint tripId location) s.lastLocation
            (calculateSpeed (sampleLocationPoint tripId location) s.lastLocation))
          (updateLocation (sampleLocationPoint tripId location)
            (calculateSpeed (sampleLocationPoint tripId location) s.lastLocation)
            { s with lastGpsUpdate := now }))

/-- The 1 Hz timer callback: `updateElapsedTime()`, then the speed-decay
watchdog — if no GPS update arrived for more than 3 s and the displayed
speed is positive, replay the last location with speed `0`. -/
def elapsedTimerTick (now : ℤ) (s : TrackingState) : TrackingState :=
  if 3000 < now - (updateElapsedTime now s).lastGpsUpdate ∧
      0 < (updateElapsedTime now s).currentSpeed then
    match (updateElapsedTime now s).lastLocation with
    | some loc => updateLocation loc 0 (updateElapsedTime now s)
    | none => updateElapsedTime now s
  else updateElapsedTime now s

/-- Source `checkGpsLoss`: on the 5 s cadence, mark the GPS lost after more
than 10 s without an update, unless paused. -/
def checkGpsLoss (now : ℤ) (s : TrackingState) : TrackingState :=
  if s.isPaused = true then s
  else if 10000 < now - s.lastGpsUpdate ∧ s.gpsStatus ≠ .lost then
    updateGpsStatus .lost s
  else s

/-- The events that can reach the store while a trip is being tracked:
a raw sample, the 1 Hz elapsed/speed-decay tick, the 5 s GPS-loss check,
the stationary timer firing, and the explicit pause/resume commands. -/
inductive TrackEvent where
  | sample (now : ℤ) (location : RawLocation)
  | tick (now : ℤ)
  | gpsCheck (now : ℤ)
  | stationaryFire
  | pauseCmd
  | resumeCmd

/-- Dispatch one event to the corresponding handler. -/
def trackStep (settings : Settings) (s : TrackingState) : TrackEvent → TrackingState
  | .sample now location => handleLocationUpdate settings now location s
  | .tick now => elapsedTimerTick now s
  | .gpsCheck now => checkGpsLoss now s
  | .stationaryFire => stationaryTimerFire s
  | .pauseCmd => pauseTracking s
  | .resumeCmd => resumeTracking s

/-- Run a sequence of tracking events. -/
def trackRun (settings : Settings) (s : TrackingState)
    (events : List TrackEvent) : TrackingState :=
  events.foldl (trackStep settings) s

/-! ## Persistence rows and the start path (`database/queries.ts`,
`hooks/useTracking.ts`) -/

/-- Trip status `'active' | 'paused' | 'completed'`. -/
inductive TripStatus where
  | active
  | paused
  | completed
deriving DecidableEq

/-- One row of the `trips` table. -/
structure TripRow where
  id : ℕ
  startTime : ℤ
  endTime : Option ℤ
  totalDistance : ℝ
  maxSpeed : ℝ
  avgSpeed : ℝ
  status : TripStatus

/-- Source `createTrip(db)`: inserts `(start_time, status) = (Date.now(),
'active')` with the remaining columns at their schema defaults, and
returns the fresh row id. -/
def createTrip (now : ℤ) (db : List TripRow) : ℕ × List TripRow :=
  let tripId := db.length + 1
  (tripId,
    db ++ [{ id := tripId, startTime := now, endTime := none,
             totalDistance := 0, maxSpeed := 0, avgSpeed := 0,
             status := .active }])

/-- Source `completeTrip(db, tripId)`: set the row's status to `'completed'`
and stamp `end_time`. -/
def completeTrip (now : ℤ) (tripId : ℕ) (db : List TripRow) : List TripRow :=
  db.map fun r =>
    if r.id = tripId then { r with status := .completed, endTime := some now } else r

/-- The number of trips whose status is not `'completed'`. -/
def countNonCompleted (db : List TripRow) : ℕ :=
  db.countP fun r => r.status ≠ TripStatus.completed

/-- The tracking hook's view of the whole app: the in-memory store (and
refs) plus the persisted `trips` table. -/
structure AppState where
  store : TrackingState
  db : List TripRow

/-- The app in its idle starting configuration. -/
def appIdle : AppState :=
  { store := initialState, db := [] }

/-- Source `startTracking()` from `hooks/useTracking.ts`.
`permissionGranted` stands for the foreground-permission check and
`locationStartOk` for the result of `startFullTracking`.  On permission
failure nothing happens; otherwise a trip row is created and the store
is started; if the location source then fails to start, the refs are
cleared and `tripStore.stopTracking()` runs, and `false` is returned. -/
def startTracking (permissionGranted locationStartOk : Bool) (now : ℤ)
    (app : AppState) : Bool × AppState :=
  if permissionGranted = false then (false, app)
  else
    let created := createTrip now app.db
    let store1 := startTrackingStore created.1 now app.store
    if locationStartOk = false then
      (false, { store := stopTrackingStore store1, db := created.2 })
    else
      (true, { store := store1, db := created.2 })

/-! ## The auto-pause debounce automaton, with exact rational speeds

`AutoPause` is the same `handleStationaryDetection` + `setTimeout`
mechanism as above, restricted to the fields it touches and stated over
`ℚ` so that concrete sample streams can be run by kernel reduction.
Times are epoch milliseconds; `(t, v)` is a sample at time `t` whose
computed speed is `v` km/h. -/

namespace AutoPause

/-- The debounce-relevant state: paused flag, current trip, and the
absolute time at which the armed `setTimeout` fires, if armed. -/
structure St where
  isPaused : Bool
  tripId : Option ℕ
  stationaryDeadline : Option ℤ

/-- The settings the debounce reads: the enable flag and the km/h
threshold (`settings.autoPauseThreshold` with unit `kmh`). -/
structure Cfg where
  autoPauseEnabled : Bool
  thresholdKmh : ℚ

/-- Fire the armed stationary timer if its deadline has passed by time
`t`: the callback pauses when a trip is active and not paused, and the
handle is dropped. -/
def fireDue (t : ℤ) (s : St) : St :=
  match s.stationaryDeadline with
  | none => s
  | some d =>
    if d ≤ t then
      let s1 :=
        if s.tripId.isSome = true ∧ s.isPaused = false then { s with isPaused := true } else s
      { s1 with stationaryDeadline := none }
    else s

/-- Source `handleStationaryDetection(speed)` over `ℚ`: skip when disabled or
paused; below threshold arm the timer (5 s) if not armed; at/above
threshold clear it, with the source's (unreachable) auto-resume tail. -/
def onSpeed (cfg : Cfg) (t : ℤ) (speed : ℚ) (s : St) : St :=
  if cfg.autoPauseEnabled = false ∨ s.isPaused = true then s
  else if speed < cfg.thresholdKmh then
    match s.stationaryDeadline with
    | some _ => s
    | none => { s with stationaryDeadline := some (t + 5 * 1000) }
  else
    let s1 := { s with stationaryDeadline := none }
    if s1.isPaused = true ∧ cfg.thresholdKmh ≤ speed then { s1 with isPaused := false } else s1

/-- Process one timestamped sample: run any due timer callback first,
then the stationary detection for the sample's speed. -/
def step (cfg : Cfg) (s : St) (sample : ℤ × ℚ) : St :=
  onSpeed cfg sample.1 sample.2 (fireDue sample.1 s)

/-- Run a sample stream. -/
def run (cfg : Cfg) (s : St) (samples : List (ℤ × ℚ)) : St :=
  samples.foldl (step cfg) s

/-- The successive states of a run, initial state included. -/
def trace (cfg : Cfg) (s : St) (samples : List (ℤ × ℚ)) : List St :=
  samples.scanl (step cfg) s

/-- How many Active→Paused transitions a state trace contains. -/
def pauseTransitions (l : List St) : ℕ :=
  (l.zip l.tail).countP fun p => p.1.isPaused = false ∧ p.2.isPaused = true

/-- Threshold 2 km/h, auto-pause enabled. -/
def cfg2 : Cfg := { autoPauseEnabled := true, thresholdKmh := 2 }

/-- Mid-trip, not paused, no timer armed. -/
def active0 : St := { isPaused := false, tripId := some 1, stationaryDeadline := none }

/-- Samples every 500 ms holding the computed speed at 1 km/h for 5.5
continuous seconds. -/
def samplesLow : List (ℤ × ℚ) :=
  [(0, 1), (500, 1), (1000, 1), (1500, 1), (2000, 1), (2500, 1),
   (3000, 1), (3500, 1), (4000, 1), (4500, 1), (5000, 1), (5500, 1)]

/-- The same stream with a single spike to 3 km/h at second 3. -/
def samplesSpike : List (ℤ × ℚ) :=
  [(0, 1), (500, 1), (1000, 1), (1500, 1), (2000, 1), (2500, 1),
   (3000, 3), (3500, 1), (4000, 1), (4500, 1), (5000, 1), (5500, 1)]

end AutoPause

/-! ## Concrete inputs used by witnesses and counterexamples -/

/-- Settings: unit km/h, auto-pause enabled, threshold 2 km/h. -/
def autoSettings : Settings :=
  { unit := .kmh, autoPauseEnabled := true, autoPauseThreshold := 2 }

/-- A session on trip 1 that is currently paused. -/
def pausedState : TrackingState :=
  { initialState with
    isTracking := true, isPaused := true, currentTripId := some 1,
    tripStartTime := some 0 }

/-- A raw sample whose device speed 10 m/s (36 km/h) is far above any
auto-pause threshold. -/
def fastSample : RawLocation :=
  { latitude := 10, longitude := 20, speed := some 10, altitude := none,
    accuracy := none, timestamp := 1000 }

/-- The last accepted point of the speed-decay scenario. -/
def decayPoint : LocationPoint :=
  { tripId := 1, latitude := 10, longitude := 20, speed := some 3,
    altitude := none, accuracy := some 5, timestamp := 0 }

/-- An active session that has not seen a GPS update since time 0 yet
still displays a positive speed. -/
def decayState : TrackingState :=
  { initialState with
    isTracking := true, currentTripId := some 1, tripStartTime := some 0,
    lastLocation := some decayPoint, currentSpeed := 12, maxSpeed := 40,
    totalDistance := 250 }

/-- A previous point that reported a device speed of 50 m/s. -/
def samePointPrev : LocationPoint :=
  { tripId := 1, latitude := 10, longitude := 20, speed := some 50,
    altitude := none, accuracy := none, timestamp := 0 }

/-- The same coordinates one second later, device speed absent. -/
def samePointCur : LocationPoint :=
  { tripId := 1, latitude := 10, longitude := 20, speed := none,
    altitude := none, accuracy := none, timestamp := 1000 }

/-- A sample carrying a negative device-reported speed. -/
def negSpeedPoint : LocationPoint :=
  { tripId := 1, latitude := 0, longitude := 0, speed := some (-1),
    altitude := none, accuracy := none, timestamp := 0 }

/-- A database holding one completed trip. -/
def appAfterTrip : AppState :=
  { store := initialState,
    db := [{ id := 1, startTime := 0, endTime := some 100,
             totalDistance := 10, maxSpeed := 5, avgSpeed := 2,
             status := .completed }] }

/-! ## Geodesy lemmas -/

/-- Negating the argument negates `toRadians`. -/
theorem toRadians_neg (x : ℝ) : toRadians (-x) = -toRadians x := by
  unfold toRadians; ring

/-- The haversine intermediate value is symmetric in its two points. -/
theorem havA_comm (a b : Coord) : havA a b = havA b a := by
  have h : ∀ x y : ℝ,
      Real.sin (toRadians (x - y) / 2) * Real.sin (toRadians (x - y) / 2)
        = Real.sin (toRadians (y - x) / 2) * Real.sin (toRadians (y - x) / 2) := by
    intro x y
    have hx : toRadians (x - y) = -toRadians (y - x) := by unfold toRadians; ring
    rw [hx, neg_div, Real.sin_neg]
    ring
  unfold havA
  rw [h a.latitude b.latitude, h a.longitude b.longitude]
  ring

/-- The haversine intermediate value vanishes on identical points. -/
theorem havA_self (a : Coord) : havA a a = 0 := by
  unfold havA toRadians
  simp

/-- Evaluation `Math.atan2(0, 1) = 0`. -/
theorem atan2_zero_one : atan2 0 1 = 0 := by
  unfold atan2
  rw [if_pos one_pos]
  simp

/-- The haversine distance is symmetric. -/
theorem haversineDistance_comm (a b : Coord) :
    haversineDistance a b = haversineDistance b a := by
  unfold haversineDistance
  rw [havA_comm]

/-- The haversine distance of a point with itself is zero. -/
theorem haversineDistance_self (a : Coord) : haversineDistance a a = 0 := by
  unfold haversineDistance
  rw [havA_self]
  simp [atan2_zero_one]

/-! ## Sample processor lemmas -/

/-- The noise filter leaves only `0` or values at least
`GPS_NOISE_THRESHOLD_KMH = 1`. -/
theorem calculateSpeed_zero_or_ge_one (c : LocationPoint) (p : Option LocationPoint) :
    calculateSpeed c p = 0 ∨ 1 ≤ calculateSpeed c p := by
  unfold calculateSpeed GPS_NOISE_THRESHOLD_KMH
  split
  · exact Or.inl rfl
  · next h => exact Or.inr (not_lt.mp h)

/-- The computed speed is never negative. -/
theorem calculateSpeed_nonneg (c : LocationPoint) (p : Option LocationPoint) :
    0 ≤ calculateSpeed c p := by
  rcases calculateSpeed_zero_or_ge_one c p with h | h
  · rw [h]
  · exact le_trans zero_le_one h

/-- The source's fallback branch coincides with the spec's fallback
rule. -/
theorem calculateSpeedFallback_eq_spec (c : LocationPoint) (p : Option LocationPoint) :
    calculateSpeedFallback c p = specFallbackKmh c p := by
  cases p <;> rfl

/-- The pre-clamp speed coincides with the spec's rules 1–3. -/
theorem calculateSpeedRaw_eq_spec (c : LocationPoint) (p : Option LocationPoint) :
    calculateSpeedRaw c p = (specDeviceKmh c).getD (specFallbackKmh c p) := by
  unfold calculateSpeedRaw specDeviceKmh
  cases hs : c.speed with
  | none => exact calculateSpeedFallback_eq_spec c p
  | some s =>
    by_cases h0 : 0 ≤ s
    · simp only [if_pos h0, Option.getD_some]
      rfl
    · simp only [if_neg h0, Option.getD_none]
      exact calculateSpeedFallback_eq_spec c p

/-- C1. The Sample Processor behaves exactly as specified: the computed
`speedKmh` equals the spec's device-preferred, `Δt`-guarded,
noise-clamped value; the distance increment is the haversine distance
exactly when a previous point exists and the post-clamp speed is
positive; and the result is never negative (in particular a zero or
negative time delta yields speed `0`, with no division). -/
theorem sampleProcessor_matches_spec (c : LocationPoint) (p : Option LocationPoint) :
    calculateSpeed c p = specSpeedKmh c p ∧
    distanceIncrement c p (calculateSpeed c p) = specIncrementMeters c p ∧
    0 ≤ calculateSpeed c p := by
  have hraw := calculateSpeedRaw_eq_spec c p
  have hs : calculateSpeed c p = specSpeedKmh c p := by
    unfold calculateSpeed specSpeedKmh GPS_NOISE_THRESHOLD_KMH
    rw [hraw]
  refine ⟨hs, ?_, calculateSpeed_nonneg c p⟩
  unfold distanceIncrement specIncrementMeters
  cases p with
  | none => rfl
  | some q => rw [hs]

/-- C8. The haversine distance is symmetric and zero on identical
points; consequently two identical consecutive coordinates with device
speed absent and a positive time delta produce speed `0` and distance
increment `0`, regardless of the previous point's reported device
speed. -/
theorem haversine_symm_zero_stationary :
    (∀ a b : Coord, haversineDistance a b = haversineDistance b a) ∧
    (∀ a : Coord, haversineDistance a a = 0) ∧
    (∀ current prev : LocationPoint,
      current.latitude = prev.latitude →
      current.longitude = prev.longitude →
      current.speed = none →
      prev.timestamp < current.timestamp →
      calculateSpeed current (some prev) = 0 ∧
      distanceIncrement current (some prev) (calculateSpeed current (some prev)) = 0) := by
  refine ⟨haversineDistance_comm, haversineDistance_self, ?_⟩
  intro current prev hlat hlon hdev _ht
  have hcoord : prev.coord = current.coord := by
    unfold LocationPoint.coord
    rw [hlat, hlon]
  have hfall : calculateSpeedFallback current (some prev) = 0 := by
    have hdef : calculateSpeedFallback current (some prev)
        = (if 0 < ((current.timestamp - prev.timestamp : ℤ) : ℝ) / 1000 then
            haversineDistance prev.coord current.coord /
              (((current.timestamp - prev.timestamp : ℤ) : ℝ) / 1000) * MS_TO_KMH
          else 0) := rfl
    rw [hdef, hcoord, haversineDistance_self]
    split <;> simp
  have hraw : calculateSpeedRaw current (some prev) = 0 := by
    unfold calculateSpeedRaw
    rw [hdev]
    exact hfall
  have hspd : calculateSpeed current (some prev) = 0 := by
    unfold calculateSpeed GPS_NOISE_THRESHOLD_KMH
    rw [hraw]
    norm_num
  refine ⟨hspd, ?_⟩
  unfold distanceIncrement
  rw [hspd]
  simp

/-- Witness for C8 at concrete points: identical coordinates, previous
point reporting 50 m/s, current device speed absent, `Δt = 1` s. -/
theorem haversine_symm_zero_stationary_witness :
    calculateSpeed samePointCur (some samePointPrev) = 0 ∧
    distanceIncrement samePointCur (some samePointPrev)
      (calculateSpeed samePointCur (some samePointPrev)) = 0 :=
  haversine_symm_zero_stationary.2.2 samePointCur samePointPrev rfl rfl rfl (by decide)

/-- C10. The computed speed is `0` or at least `1` km/h — nothing
strictly between — and a negative device-reported speed is never used:
the result equals what the fallback path computes for the same sample
with the device speed absent. -/
theorem calculateSpeed_noise_floor_nonneg (c : LocationPoint) (p : Option LocationPoint) :
    (calculateSpeed c p = 0 ∨ 1 ≤ calculateSpeed c p) ∧
    (∀ s : ℝ, c.speed = some s → s < 0 →
      calculateSpeed c p = calculateSpeed { c with speed := none } p) := by
  refine ⟨calculateSpeed_zero_or_ge_one c p, ?_⟩
  intro s hs hneg
  have hraw : calculateSpeedRaw c p = calculateSpeedRaw { c with speed := none } p := by
    have h1 : calculateSpeedRaw c p
        = (if 0 ≤ s then s * MS_TO_KMH else calculateSpeedFallback c p) := by
      unfold calculateSpeedRaw
      rw [hs]
    have h2 : calculateSpeedRaw { c with speed := none } p
        = calculateSpeedFallback { c with speed := none } p := rfl
    have h3 : calculateSpeedFallback { c with speed := none } p
        = calculateSpeedFallback c p := by
      cases p <;> rfl
    rw [h1, if_neg (not_le.mpr hneg), h2, h3]
  unfold calculateSpeed
  rw [hraw]

/-- Witness for C10: a sample whose device speed is `-1` m/s takes the
fallback path, and in the absence of a previous point yields `0`. -/
theorem calculateSpeed_noise_floor_nonneg_witness :
    calculateSpeed negSpeedPoint none
        = calculateSpeed { negSpeedPoint with speed := none } none ∧
    (calculateSpeed negSpeedPoint none = 0 ∨ 1 ≤ calculateSpeed negSpeedPoint none) :=
  ⟨(calculateSpeed_noise_floor_nonneg negSpeedPoint none).2 (-1) rfl (by norm_num),
   (calculateSpeed_noise_floor_nonneg negSpeedPoint none).1⟩

/-! ## Monotonicity of the running totals -/

/-- Stationary detection only manipulates the pause flag and the timer:
the totals are untouched. -/
theorem handleStationaryDetection_frame (settings : Settings) (now : ℤ)
    (speed : ℝ) (s : TrackingState) :
    (handleStationaryDetection settings now speed s).totalDistance = s.totalDistance ∧
    (handleStationaryDetection settings now speed s).maxSpeed = s.maxSpeed := by
  constructor <;>
    · unfold handleStationaryDetection resumeTracking
      repeat' split
      all_goals rfl

/-- The action `updateElapsedTime` only refreshes `elapsedTime` and `avgSpeed`. -/
theorem updateElapsedTime_frame (now : ℤ) (s : TrackingState) :
    (updateElapsedTime now s).totalDistance = s.totalDistance ∧
    (updateElapsedTime now s).maxSpeed = s.maxSpeed ∧
    (updateElapsedTime now s).currentSpeed = s.currentSpeed ∧
    (updateElapsedTime now s).lastLocation = s.lastLocation ∧
    (updateElapsedTime now s).lastGpsUpdate = s.lastGpsUpdate := by
  refine ⟨?_, ?_, ?_, ?_, ?_⟩ <;>
    · unfold updateElapsedTime
      repeat' split
      all_goals rfl

/-- The step `applyDistance` can only grow `totalDistance` and keeps
`maxSpeed`. -/
theorem applyDistance_mono (now : ℤ) (d : ℝ) (s : TrackingState) :
    s.totalDistance ≤ (applyDistance now d s).totalDistance ∧
    (applyDistance now d s).maxSpeed = s.maxSpeed := by
  unfold applyDistance updateDistance
  split
  · next h => exact ⟨le_add_of_nonneg_right (le_of_lt h), rfl⟩
  · exact ⟨le_refl _, rfl⟩

/-- The composite store update of one accepted sample — location, then
guarded distance, then stationary detection — can only grow
`totalDistance` and `maxSpeed`. -/
theorem acceptedSample_mono (settings : Settings) (now : ℤ) (spd d : ℝ)
    (pt : LocationPoint) (base : TrackingState) :
    base.totalDistance ≤
      (handleStationaryDetection settings now spd
        (applyDistance now d (updateLocation pt spd base))).totalDistance ∧
    base.maxSpeed ≤
      (handleStationaryDetection settings now spd
        (applyDistance now d (updateLocation pt spd base))).maxSpeed := by
  rw [(handleStationaryDetection_frame settings now spd
        (applyDistance now d (updateLocation pt spd base))).1,
    (handleStationaryDetection_frame settings now spd
        (applyDistance now d (updateLocation pt spd base))).2]
  constructor
  · exact (applyDistance_mono now d (updateLocation pt spd base)).1
  · rw [(applyDistance_mono now d (updateLocation pt spd base)).2]
    exact le_max_left _ _

/-- One tracking event can only grow `totalDistance` and `maxSpeed`. -/
theorem trackStep_mono (settings : Settings) (s : TrackingState) (e : TrackEvent) :
    s.totalDistance ≤ (trackStep settings s e).totalDistance ∧
    s.maxSpeed ≤ (trackStep settings s e).maxSpeed := by
  cases e with
  | sample now location =>
    show s.totalDistance ≤ (handleLocationUpdate settings now location s).totalDistance ∧
      s.maxSpeed ≤ (handleLocationUpdate settings now location s).maxSpeed
    unfold handleLocationUpdate
    cases htrip : s.currentTripId with
    | none => exact ⟨le_refl _, le_refl _⟩
    | some tripId =>
      simp only [htrip]
      by_cases hp : s.isPaused = true
      · rw [if_pos hp]
        exact ⟨le_refl _, le_refl _⟩
      · rw [if_neg hp]
        exact acceptedSample_mono settings now
          (calculateSpeed (sampleLocationPoint tripId location) s.lastLocation)
          (distanceIncrement (sampleLocationPoint tripId location) s.lastLocation
            (calculateSpeed (sampleLocationPoint tripId location) s.lastLocation))
          (sampleLocationPoint tripId location)
          { s with currentTripId := some tripId, lastGpsUpdate := now }
  | tick now =>
    show s.totalDistance ≤ (elapsedTimerTick now s).totalDistance ∧
      s.maxSpeed ≤ (elapsedTimerTick now s).maxSpeed
    unfold elapsedTimerTick
    obtain ⟨hfd, hfm, _, _, _⟩ := updateElapsedTime_frame now s
    split
    · split
      · constructor
        · exact le_of_eq hfd.symm
        · show s.maxSpeed ≤ max (updateElapsedTime now s).maxSpeed 0
          rw [hfm]
          exact le_max_left _ _
      · exact ⟨le_of_eq hfd.symm, le_of_eq hfm.symm⟩
    · exact ⟨le_of_eq hfd.symm, le_of_eq hfm.symm⟩
  | gpsCheck now =>
    show s.totalDistance ≤ (checkGpsLoss now s).totalDistance ∧
      s.maxSpeed ≤ (checkGpsLoss now s).maxSpeed
    unfold checkGpsLoss updateGpsStatus
    repeat' split
    all_goals exact ⟨le_refl _, le_refl _⟩
  | stationaryFire =>
    show s.totalDistance ≤ (stationaryTimerFire s).totalDistance ∧
      s.maxSpeed ≤ (stationaryTimerFire s).maxSpeed
    unfold stationaryTimerFire pauseTracking
    repeat' split
    all_goals exact ⟨le_refl _, le_refl _⟩
  | pauseCmd => exact ⟨le_refl _, le_refl _⟩
  | resumeCmd => exact ⟨le_refl _, le_refl _⟩

/-- C2. Over any sequence of tracking events (samples, timer ticks,
pause/resume), `totalDistance` and `maxSpeed` never decrease. -/
theorem totals_monotone_over_samples (settings : Settings)
    (events : List TrackEvent) : ∀ s : TrackingState,
    s.totalDistance ≤ (trackRun settings s events).totalDistance ∧
    s.maxSpeed ≤ (trackRun settings s events).maxSpeed := by
  induction events with
  | nil => exact fun s => ⟨le_refl _, le_refl _⟩
  | cons e es ih =>
    intro s
    have hrun : trackRun settings s (e :: es)
        = trackRun settings (trackStep settings s e) es := rfl
    have h1 := trackStep_mono settings s e
    have h2 := ih (trackStep settings s e)
    rw [hrun]
    exact ⟨le_trans h1.1 h2.1, le_trans h1.2 h2.2⟩

/-! ## Start path, recovery, pause machinery -/

/-- The count `countNonCompleted` distributes over append. -/
theorem countNonCompleted_append (l1 l2 : List TripRow) :
    countNonCompleted (l1 ++ l2) = countNonCompleted l1 + countNonCompleted l2 := by
  unfold countNonCompleted
  exact List.countP_append _ _ _

/-- C3 counterexample. `startTracking` has no Idle precondition: two
consecutive successful `start()` calls from the idle app leave two
trips in the database whose status is not `'completed'`. -/
theorem double_start_two_active_trips :
    countNonCompleted
        ((startTracking true true 1000 (startTracking true true 0 appIdle).2).2).db = 2 := by
  decide

/-- C3 amended. When every persisted trip is completed — the situation
the UI guarantees when its start button is shown — a `start()` call
leaves at most one non-completed trip, whatever the permission and
location-source outcomes. -/
theorem start_from_all_completed_at_most_one_active (app : AppState)
    (perm lok : Bool) (now : ℤ) (h : countNonCompleted app.db = 0) :
    countNonCompleted (startTracking perm lok now app).2.db ≤ 1 := by
  have hone : ∀ r : TripRow, countNonCompleted (app.db ++ [r]) ≤ 1 := by
    intro r
    rw [countNonCompleted_append, h]
    unfold countNonCompleted
    simp [List.countP_cons]
    split <;> simp
  cases perm with
  | false =>
    show countNonCompleted app.db ≤ 1
    rw [h]
    exact Nat.zero_le 1
  | true =>
    cases lok with
    | false => exact hone _
    | true => exact hone _

/-- Witness for the amended C3 at a database holding one completed
trip. -/
theorem start_from_all_completed_at_most_one_active_witness :
    countNonCompleted appAfterTrip.db = 0 ∧
    countNonCompleted (startTracking true true 200 appAfterTrip).2.db ≤ 1 :=
  ⟨by decide, start_from_all_completed_at_most_one_active appAfterTrip true true 200 (by decide)⟩

/-- C9 counterexample. When the location source fails to start, the
trip row just created is not discarded: it stays persisted with status
`'active'` (so `getActiveTrip` will later restore it), even though the
call reports failure and the in-memory session resets. -/
theorem start_failure_leaves_active_row :
    (startTracking true false 0 appIdle).1 = false ∧
    (startTracking true false 0 appIdle).2.store.isTracking = false ∧
    countNonCompleted (startTracking true false 0 appIdle).2.db = 1 := by
  refine ⟨rfl, rfl, ?_⟩
  decide

/-- C9 amended. A permission failure returns `false` and changes
nothing.  A location-source start failure returns `false` and leaves the
in-memory session Idle (not tracking, not paused, no current trip), but
the freshly created trip row remains persisted with status
`'active'`. -/
theorem start_failure_semantics (app : AppState) (now : ℤ) (lok : Bool) :
    startTracking false lok now app = (false, app) ∧
    (startTracking true false now app).1 = false ∧
    (startTracking true false now app).2.store.isTracking = false ∧
    (startTracking true false now app).2.store.isPaused = false ∧
    (startTracking true false now app).2.store.currentTripId = none ∧
    (startTracking true false now app).2.db
      = app.db ++ [{ id := app.db.length + 1, startTime := now, endTime := none,
                     totalDistance := 0, maxSpeed := 0, avgSpeed := 0,
                     status := TripStatus.active }] :=
  ⟨rfl, rfl, rfl, rfl, rfl, rfl⟩

/-- C4. While the trip is paused, an incoming sample — even one moving
at 36 km/h, far above the 2 km/h threshold — is skipped entirely: the
handler only refreshes the GPS watchdog clock and the trip stays
paused.  The stationary handler likewise returns immediately when
paused, so its auto-resume branch never runs: here it leaves the paused
state untouched for the same fast speed. -/
theorem paused_sample_is_skipped_no_auto_resume :
    (handleLocationUpdate autoSettings 1000 fastSample pausedState).isPaused = true ∧
    handleLocationUpdate autoSettings 1000 fastSample pausedState
      = { pausedState with lastGpsUpdate := 1000 } ∧
    handleStationaryDetection autoSettings 1000 36 pausedState = pausedState :=
  ⟨rfl, rfl, rfl⟩

/-- C5 counterexample. Restoring a persisted Active trip (start time 0,
500 m, persisted average 7 km/h) at wall clock 600000 ms recomputes the
elapsed time to 600 s but keeps the stale persisted average speed 7,
not the recomputed 3.0. -/
theorem restore_keeps_stale_avgSpeed :
    (restoreTracking 600000 1 0 500 40 7 initialState).elapsedTime = 600 ∧
    (restoreTracking 600000 1 0 500 40 7 initialState).avgSpeed = 7 ∧
    (restoreTracking 600000 1 0 500 40 7 initialState).avgSpeed ≠ 3 := by
  refine ⟨by decide, rfl, ?_⟩
  rw [show (restoreTracking 600000 1 0 500 40 7 initialState).avgSpeed = 7 from rfl]
  norm_num

/-- C5 amended. Restoring an Active trip (start `T`, 500 m) at wall
clock `T + 600000` recomputes `elapsedTime = 600` s from the wall clock
but sets `avgSpeed` to the persisted value; the first subsequent
elapsed-time tick (within 1 s) recomputes the average from the wall
clock, yielding exactly 3 km/h. -/
theorem restore_recovery_elapsed_and_next_tick_avg (T : ℤ) (maxP avgP : ℝ)
    (s : TrackingState) :
    (restoreTracking (T + 600000) 1 T 500 maxP avgP s).elapsedTime = 600 ∧
    (restoreTracking (T + 600000) 1 T 500 maxP avgP s).avgSpeed = avgP ∧
    (updateElapsedTime (T + 600000)
        (restoreTracking (T + 600000) 1 T 500 maxP avgP s)).avgSpeed = 3 := by
  have he : T + 600000 - T = 600000 := by ring
  refine ⟨?_, rfl, ?_⟩
  · show (T + 600000 - T).fdiv 1000 = 600
    rw [he]
    decide
  · show (if (0:ℝ) < ((T + 600000 - T).fdiv 1000 : ℝ) / 3600 then
        (500:ℝ) / 1000 / (((T + 600000 - T).fdiv 1000 : ℝ) / 3600) else 0) = 3
    rw [he, show (600000 : ℤ).fdiv 1000 = 600 from by decide]
    norm_num

/-- C6. The auto-pause debounce (threshold 2 km/h, duration 5 s): a
stream holding the computed speed at 1 km/h for 5.5 continuous seconds
pauses the trip exactly once; with a single spike to 3 km/h at second 3
the timer is cleared without firing, no pause happens in the stream's
5.5 s window, and the debounce is found re-armed for 8500 ms (5 s after
the speed dropped again at 3.5 s). -/
theorem autoPause_debounce_scenarios :
    AutoPause.pauseTransitions
        (AutoPause.trace AutoPause.cfg2 AutoPause.active0 AutoPause.samplesLow) = 1 ∧
    (AutoPause.run AutoPause.cfg2 AutoPause.active0 AutoPause.samplesLow).isPaused = true ∧
    AutoPause.pauseTransitions
        (AutoPause.trace AutoPause.cfg2 AutoPause.active0 AutoPause.samplesSpike) = 0 ∧
    (AutoPause.run AutoPause.cfg2 AutoPause.active0 AutoPause.samplesSpike).stationaryDeadline
      = some 8500 := by
  refine ⟨?_, ?_, ?_, ?_⟩ <;> decide

/-- C7. When the speed-decay watchdog fires (no sample for more than
3 s while the displayed speed is positive), the tick zeroes the current
speed but leaves `totalDistance`, `maxSpeed` and the last accepted
location untouched. -/
theorem speed_decay_frame (s : TrackingState) (now : ℤ) (loc : LocationPoint)
    (hloc : s.lastLocation = some loc) (hmax : 0 ≤ s.maxSpeed)
    (hgap : 3000 < now - s.lastGpsUpdate) (hspd : 0 < s.currentSpeed) :
    (elapsedTimerTick now s).currentSpeed = 0 ∧
    (elapsedTimerTick now s).totalDistance = s.totalDistance ∧
    (elapsedTimerTick now s).maxSpeed = s.maxSpeed ∧
    (elapsedTimerTick now s).lastLocation = s.lastLocation := by
  obtain ⟨hfd, hfm, hfc, hfl, hfg⟩ := updateElapsedTime_frame now s
  unfold elapsedTimerTick
  rw [hfg, hfc, hfl, hloc, if_pos ⟨hgap, hspd⟩]
  refine ⟨rfl, hfd, ?_, rfl⟩
  show max (updateElapsedTime now s).maxSpeed 0 = s.maxSpeed
  rw [hfm]
  exact max_eq_left hmax

/-- Witness for C7 at a concrete stalled session (last update at 0,
tick at 5000 ms, displayed speed 12 km/h). -/
theorem speed_decay_frame_witness :
    decayState.lastLocation = some decayPoint ∧
    (elapsedTimerTick 5000 decayState).currentSpeed = 0 ∧
    (elapsedTimerTick 5000 decayState).totalDistance = decayState.totalDistance ∧
    (elapsedTimerTick 5000 decayState).maxSpeed = decayState.maxSpeed ∧
    (elapsedTimerTick 5000 decayState).lastLocation = decayState.lastLocation := by
  have h := speed_decay_frame decayState 5000 decayPoint rfl (by norm_num [decayState, initialState])
    (by decide) (by norm_num [decayState, initialState])
  exact ⟨rfl, h.1, h.2.1, h.2.2.1, h.2.2.2⟩

end

end SpeedMeter
